import Mathlib

/-!
Shallow embedding of the `chaselatta/workflow` engine (Rust) used to check the
natural-language specification against the source.

Each definition is translated from the source file named in its doc comment.
Rust strings are modelled as Lean `String`s; where the Rust code inspects the
byte structure of a string (length, leading characters) we work on the
character list `String.data`, which agrees with the Rust byte-level operations
on ASCII data.  Fallible Rust functions returning `anyhow::Result` are
modelled with `Except`; sites where the Rust code panics (`panic!`,
`.expect(..)`) are modelled with dedicated `panicked` constructors so that a
panic is distinguishable from a returned error.
-/

deriving instance DecidableEq for Except

/-- `VariableScope` from `src/stdlib/variable.rs`: a variable is readable or
writable either globally or by a restricted list of names. -/
inductive VariableScope
  | Global : VariableScope
  | Restricted : List String → VariableScope
deriving DecidableEq, Repr

/-- `ValueUpdatedBy` from `src/stdlib/variable.rs`: provenance of the current
value of a variable. -/
inductive ValueUpdatedBy
  | CLIFlag : String → ValueUpdatedBy
  | EnvironmentVariable : String → ValueUpdatedBy
  | Action : String → ValueUpdatedBy
  | DefaultValue : ValueUpdatedBy
deriving DecidableEq, Repr

/-- `ValueContext` from `src/stdlib/variable.rs`: the current value together
with how it was set. -/
structure ValueContext where
  value : String
  updated_by : ValueUpdatedBy
deriving DecidableEq, Repr

/-- `Variable` from `src/stdlib/variable.rs`. -/
structure Variable where
  name : String
  env : Option String := none
  cli_flag : Option String := none
  readers : VariableScope := .Global
  writers : VariableScope := .Global
  value_ctx : Option ValueContext := none
deriving DecidableEq, Repr

/-- `VariableError` from `src/stdlib/variable.rs` (constructor arguments keep
the order reader/writer first, variable name second). -/
inductive VariableError
  | ReadNotAllowed : String → String → VariableError
  | WriteNotAllowed : String → String → VariableError
  | NoDefaultValueSet : String → VariableError
deriving DecidableEq, Repr

/-- `StdlibError::InvalidAttribute` from `src/stdlib/errors.rs`
(`new_invalid_attr(attr, reason, value)`). -/
structure InvalidAttr where
  attr : String
  reason : String
  value : String
deriving DecidableEq, Repr

/-- `access_allowed` from `src/stdlib/variable.rs` lines 197-202: `Global`
always allows, `Restricted` allows exactly the listed names. -/
def access_allowed (scope : VariableScope) (entry : String) : Bool :=
  match scope with
  | .Global => true
  | .Restricted allowed => allowed.contains entry

/-- `Variable::read_value_unchecked` from `src/stdlib/variable.rs`. -/
def Variable.read_value_unchecked (v : Variable) : Except VariableError String :=
  match v.value_ctx with
  | some ctx => .ok ctx.value
  | none => .error (.NoDefaultValueSet v.name)

/-- `Variable::read_value` from `src/stdlib/variable.rs` lines 241-249. -/
def Variable.read_value (v : Variable) (reader : String) : Except VariableError String :=
  if access_allowed v.readers reader then
    v.read_value_unchecked
  else
    .error (.ReadNotAllowed reader v.name)

/-- `Variable::write_value_unchecked` from `src/stdlib/variable.rs`: Rust
mutates `self.value_ctx`; the model returns the updated variable. -/
def Variable.write_value_unchecked (v : Variable) (value : String)
    (updated_by : ValueUpdatedBy) : Variable :=
  { v with value_ctx := some ⟨value, updated_by⟩ }

/-- `Variable::write_value` from `src/stdlib/variable.rs` lines 258-268. -/
def Variable.write_value (v : Variable) (value : String) (writer : String) :
    Except VariableError Variable :=
  if access_allowed v.writers writer then
    .ok (v.write_value_unchecked value (.Action writer))
  else
    .error (.WriteNotAllowed writer v.name)

/-- `find_cli_flag_value` from `src/stdlib/variable.rs` lines 348-356: walk the
args, and at the first element equal to the flag return the following element
(if any). -/
def find_cli_flag_value (flag : String) : List String → Option String
  | [] => none
  | v :: rest => if v = flag then rest.head? else find_cli_flag_value flag rest

/-- Errors of `Variable::try_update_value_from_cli_flag` (the two `bail!`
branches), carrying the variable name and, where present, the flag. -/
inductive CliUpdateError
  | flagNotInArgs : String → String → CliUpdateError
  | noCliFlagSet : String → CliUpdateError
deriving DecidableEq, Repr

/-- `Variable::try_update_value_from_cli_flag` from `src/stdlib/variable.rs`
lines 270-288. -/
def Variable.try_update_value_from_cli_flag (v : Variable) (args : List String) :
    Except CliUpdateError Variable :=
  match v.cli_flag with
  | some flag =>
    match find_cli_flag_value flag args with
    | some value => .ok (v.write_value_unchecked value (.CLIFlag flag))
    | none => .error (.flagNotInArgs v.name flag)
  | none => .error (.noCliFlagSet v.name)

/-- Errors of `Variable::try_update_value_from_env` (the two `bail!`
branches). -/
inductive EnvUpdateError
  | noSuchEnvVar : String → String → EnvUpdateError
  | noEnvSet : String → EnvUpdateError
deriving DecidableEq, Repr

/-- `Variable::try_update_value_from_env` from `src/stdlib/variable.rs` lines
290-304.  The process environment (`std::env::var`) is passed in as the map
`envv`. -/
def Variable.try_update_value_from_env (envv : String → Option String) (v : Variable) :
    Except EnvUpdateError Variable :=
  match v.env with
  | some key =>
    match envv key with
    | some val => .ok (v.write_value_unchecked val (.EnvironmentVariable key))
    | none => .error (.noSuchEnvVar v.name key)
  | none => .error (.noEnvSet v.name)

/-- The per-variable body of `ParseContext::realize_variables`
(`src/stdlib/parser/parse_context.rs` lines 104-119) and of
`VariableStore::realize_variables` (`src/runner/variable_store.rs` lines
48-60): try the CLI flag first, then the environment, else leave the variable
untouched. -/
def realize_variable (envv : String → Option String) (args : List String)
    (v : Variable) : Variable :=
  match v.try_update_value_from_cli_flag args with
  | .ok v2 => v2
  | .error _ =>
    match v.try_update_value_from_env envv with
    | .ok v2 => v2
    | .error _ => v

/-- `VariableStore::realize_variables` from `src/runner/variable_store.rs`
lines 48-60: apply the CLI/env/default resolution to every registered entry
(`for var in vars.values_mut()`).  The store entry type `VariableEntry` has no
source file in this snapshot; its `try_update_value_from_cli_flag` /
`try_update_value_from_env` methods are those of `Variable` in
`src/stdlib/variable.rs`, which `ParseContext::realize_variables` calls with
identical logic. -/
def realize_variables (envv : String → Option String) (args : List String)
    (store : List (String × Variable)) : List (String × Variable) :=
  store.map (fun p => (p.1, realize_variable envv args p.2))

/-- `validate_cli_flag` from `src/stdlib/variable.rs` lines 135-170.  The
checks are performed on the character list of the flag (`String.data`),
matching the Rust byte-level checks on ASCII input. -/
def validate_cli_flag (cli_flag : Option String) : Except InvalidAttr (Option String) :=
  match cli_flag with
  | none => .ok none
  | some flag =>
    if flag.data = [] then
      .error ⟨"cli_flag", "cannot be empty", flag⟩
    else if flag.data.contains ' ' then
      .error ⟨"cli_flag", "cannot contain spaces", flag⟩
    else if flag.data.length = 2 ∧ (flag.data.take 1 ≠ ['-'] ∨ flag.data = ['-', '-']) then
      .error ⟨"cli_flag", "short flags must take the form -v", flag⟩
    else if 2 < flag.data.length ∧ flag.data.take 2 ≠ ['-', '-'] then
      .error ⟨"cli_flag", "long flags must take the form --value", flag⟩
    else
      .ok (some flag)

/-- The cli_flag shape exactly as the spec words it: `-x` (exactly 2 chars,
single leading dash, not `--`) or `--xxxx` (leading double dash, length
greater than 2).  Written from the spec, to be compared with
`validate_cli_flag`. -/
def claimed_flag_shape (l : List Char) : Prop :=
  (l.length = 2 ∧ l.take 1 = ['-'] ∧ l ≠ ['-', '-']) ∨
  (l.take 2 = ['-', '-'] ∧ 2 < l.length)

/-- The set of flags `validate_cli_flag` actually accepts: additionally to the
spec's two shapes, any space-free single-character string passes (no branch of
the Rust function checks strings of length 1). -/
def amended_flag_shape (l : List Char) : Prop :=
  ¬ l.contains ' ' ∧
    (l.length = 1 ∨
     (l.length = 2 ∧ l.take 1 = ['-'] ∧ l ≠ ['-', '-']) ∨
     (2 < l.length ∧ l.take 2 = ['-', '-']))

/-- Legacy `Tool` from `src/stdlib/legacy/tool.rs` (the variant owned by
`ParseContext`).  Filesystem paths are modelled as strings. -/
structure Tool where
  name : String
  builtin : Bool
  path : Option String := none
  root : Option String := none
deriving DecidableEq, Repr

/-- `Tool::cmd` from `src/stdlib/legacy/tool.rs`.  `whichf` abstracts the
`which` PATH/filesystem lookup, and `interp` abstracts
`StringInterpolator::interpolate` composed with `.ok()` (its regex body is not
embedded); `interp` receives the path text and the tool name (the reader the
Rust code passes).  Relative paths are joined to the root with a `/`,
modelling `PathBuf::push`. -/
def Tool.cmd (interp : String → String → Option String)
    (whichf : String → Option String) (t : Tool) : Option String :=
  if t.builtin then
    whichf t.name
  else
    match t.path.bind (fun s => interp s t.name) with
    | some path =>
      let full : Option String :=
        if path.data.take 1 = ['/'] then some path
        else t.root.map (fun r => r ++ "/" ++ path)
      full.bind whichf
    | none => none

/-- `FrozenTool` from `src/stdlib/legacy/tool.rs`. -/
structure FrozenTool where
  name : String
  builtin : Bool
  path : Option String
  cmd : Option String
deriving DecidableEq, Repr

/-- `Tool::freeze` from `src/stdlib/legacy/tool.rs`: fully-owned copies of the
display fields plus the resolved command. -/
def Tool.freeze (interp : String → String → Option String)
    (whichf : String → Option String) (t : Tool) : FrozenTool :=
  { name := t.name, builtin := t.builtin, path := t.path, cmd := t.cmd interp whichf }

/-- `FrozenVariable` from `src/stdlib/variable.rs` lines 325-333. -/
structure FrozenVariable where
  name : String
  env : Option String
  cli_flag : Option String
  readers : VariableScope
  writers : VariableScope
  value : Option ValueContext
deriving DecidableEq, Repr

/-- `impl From<&Variable> for FrozenVariable` from `src/stdlib/variable.rs`
lines 335-346: clones every display field. -/
def FrozenVariable.fromVariable (v : Variable) : FrozenVariable :=
  { name := v.name, env := v.env, cli_flag := v.cli_flag,
    readers := v.readers, writers := v.writers, value := v.value_ctx }

/-- `ParseContext` from `src/stdlib/parser/parse_context.rs`: the variable and
tool registries, modelled as association lists keyed as the Rust `HashMap`s
are (`add_variable` keys by `var.name()`, `add_tool` by `tool.name()`). -/
structure ParseContext where
  vars : List (String × Variable) := []
  tools : List (String × Tool) := []
deriving DecidableEq, Repr

/-- `ParseContextSnapshot` from `src/stdlib/parser/parse_context.rs`.  The
Rust field `variables` is spelled `variableList` because `variables` is a
reserved word in Lean. -/
structure ParseContextSnapshot where
  variableList : List FrozenVariable
  tools : List FrozenTool
deriving DecidableEq, Repr

/-- `ParseContext::snapshot` from `src/stdlib/parser/parse_context.rs` lines
64-79: freeze every registered variable and tool. -/
def ParseContext.mkSnapshot (interp : String → String → Option String)
    (whichf : String → Option String) (ctx : ParseContext) : ParseContextSnapshot :=
  { variableList := ctx.vars.map (fun p => FrozenVariable.fromVariable p.2),
    tools := ctx.tools.map (fun p => p.2.freeze interp whichf) }

/-- `ParseContext::snapshot` as a state-passing operation: the Rust method
takes `&self` (a shared borrow) and thus leaves the registry untouched, which
the model expresses by returning the context unchanged next to the produced
snapshot. -/
def ParseContext.snapshotOp (interp : String → String → Option String)
    (whichf : String → Option String) (ctx : ParseContext) :
    ParseContextSnapshot × ParseContext :=
  (ctx.mkSnapshot interp whichf, ctx)

/-- In-place update of the entry with the given key, as
`HashMap::get_mut` + mutation inside `ParseContext::with_variable_mut`
(first matching key; `HashMap` keys are unique). -/
def update_assoc (name : String) (f : Variable → Variable) :
    List (String × Variable) → List (String × Variable)
  | [] => []
  | p :: rest =>
    if p.1 = name then (p.1, f p.2) :: rest else p :: update_assoc name f rest

/-- `ParseContext::with_variable_mut(name, |v| v.write_value(value, writer))`:
the mutation a run-time setter performs on the live registry
(`src/stdlib/parser/parse_context.rs` lines 135-145 together with
`Variable::write_value`); on a scope error the variable is left unchanged. -/
def ParseContext.writeVariable (ctx : ParseContext) (name value writer : String) :
    ParseContext :=
  { ctx with
    vars := update_assoc name
      (fun v => match v.write_value value writer with
        | .ok v2 => v2
        | .error _ => v) ctx.vars }

/-- Behavioural abstraction of `Node` (`src/stdlib/node.rs`) for the graph
walk: per `Node::run` lines 89-124, running a node either fails, or yields
`none` (its Next returned `None` or it has no Next) or `some name` (its Next
returned the string `name`). -/
structure NodeB where
  name : String
  runResult : Except String (Option String)
deriving Repr

/-- `Workflow` from `src/stdlib/workflow.rs`: an entrypoint plus the graph, an
insertion-ordered map from node name to node (`SmallMap`), modelled as an
association list. -/
structure WorkflowB where
  entrypoint : String
  graph : List (String × NodeB)
deriving Repr

/-- Key lookup in the graph map, as `SmallMap::get` inside
`Workflow::node_with_name`. -/
def graph_lookup (name : String) : List (String × NodeB) → Option NodeB
  | [] => none
  | p :: rest => if p.1 = name then some p.2 else graph_lookup name rest

/-- `Workflow::first_node` from `src/stdlib/workflow.rs` lines 64-83: an empty
graph is an error; a single-node graph yields that node regardless of the
entrypoint; otherwise the entrypoint must name an existing node. -/
def first_node (w : WorkflowB) : Except String NodeB :=
  match w.graph with
  | [] => .error "Graph contains no nodes"
  | [p] => .ok p.2
  | _ => match graph_lookup w.entrypoint w.graph with
    | some n => .ok n
    | none => .error ("No node with name: " ++ w.entrypoint)

/-- Result of driving the graph walk with bounded fuel. -/
inductive WalkResult
  | ok : WalkResult
  | err : String → WalkResult
  | outOfFuel : WalkResult
deriving DecidableEq, Repr

/-- Modelled from the spec: the looping driver of `Workflow::run` — "After
the starting node runs and yields a next-node name (or none), repeat node
lookup/run until none is returned or a named node cannot be found (which is
an error, not a silent stop)."  The revision of `Workflow::run` present in
`src/stdlib/workflow.rs` (lines 85-93) is stale: it calls `Node::run` without
the `eval` argument the current `Node::run` signature requires and discards
the next-node name, while its caller `src/cmd/run.rs` invokes a
three-argument `workflow.run(delegate, &working_dir, &mut eval)` that has no
definition under `src/`.  The missing looping driver is therefore modelled
from the spec, on top of the in-source `first_node` and the `Node::run`
outcome contract. -/
def run_walk (g : List (String × NodeB)) : Nat → NodeB → WalkResult
  | 0, _ => .outOfFuel
  | fuel + 1, node =>
    match node.runResult with
    | .error e => .err e
    | .ok none => .ok
    | .ok (some nextName) =>
      match graph_lookup nextName g with
      | some nextNode => run_walk g fuel nextNode
      | none => .err ("No node with name: " ++ nextName)

/-- Modelled from the spec (see `run_walk`): `Workflow::run` resolves the
starting node with `first_node` and then drives the walk. -/
def workflow_run (fuel : Nat) (w : WorkflowB) : WalkResult :=
  match first_node w with
  | .error e => .err e
  | .ok node => run_walk w.graph fuel node

/-- UTF-8 validation/decoding of a byte list, as `std::str::from_utf8` in
`OutputCollector::stdout`/`stderr` (`src/stdlib/action.rs` lines 268-274):
`none` on any invalid sequence (RFC 3629: overlongs, surrogates and
out-of-range code points rejected), otherwise the decoded characters. -/
def utf8Decode : List Nat → Option (List Char)
  | [] => some []
  | b :: rest =>
    if b ≤ 0x7F then
      (utf8Decode rest).map (fun cs => Char.ofNat b :: cs)
    else if 0xC2 ≤ b ∧ b ≤ 0xDF then
      match rest with
      | b1 :: rest1 =>
        if 0x80 ≤ b1 ∧ b1 ≤ 0xBF then
          (utf8Decode rest1).map
            (fun cs => Char.ofNat ((b - 0xC0) * 0x40 + (b1 - 0x80)) :: cs)
        else none
      | [] => none
    else if 0xE0 ≤ b ∧ b ≤ 0xEF then
      match rest with
      | b1 :: b2 :: rest2 =>
        let lo1 : Nat := if b = 0xE0 then 0xA0 else 0x80
        let hi1 : Nat := if b = 0xED then 0x9F else 0xBF
        if (lo1 ≤ b1 ∧ b1 ≤ hi1) ∧ (0x80 ≤ b2 ∧ b2 ≤ 0xBF) then
          (utf8Decode rest2).map
            (fun cs =>
              Char.ofNat ((b - 0xE0) * 0x1000 + (b1 - 0x80) * 0x40 + (b2 - 0x80)) :: cs)
        else none
      | _ => none
    else if 0xF0 ≤ b ∧ b ≤ 0xF4 then
      match rest with
      | b1 :: b2 :: b3 :: rest3 =>
        let lo1 : Nat := if b = 0xF0 then 0x90 else 0x80
        let hi1 : Nat := if b = 0xF4 then 0x8F else 0xBF
        if (lo1 ≤ b1 ∧ b1 ≤ hi1) ∧ (0x80 ≤ b2 ∧ b2 ≤ 0xBF) ∧ (0x80 ≤ b3 ∧ b3 ≤ 0xBF) then
          (utf8Decode rest3).map
            (fun cs =>
              Char.ofNat
                ((b - 0xF0) * 0x40000 + (b1 - 0x80) * 0x1000 +
                  (b2 - 0x80) * 0x40 + (b3 - 0x80)) :: cs)
        else none
      | _ => none
    else none

/-- `OutputCollector` from `src/stdlib/action.rs` lines 245-258: byte buffers
for the two streams plus the `should_collect` switch. -/
structure OutputCollector where
  stdout : List Nat
  stderr : List Nat
  should_collect : Bool
deriving DecidableEq, Repr

/-- `OutputCollector::new` from `src/stdlib/action.rs`. -/
def OutputCollector.new (should_collect : Bool) : OutputCollector :=
  { stdout := [], stderr := [], should_collect := should_collect }

/-- `OutputCollector::collect` from `src/stdlib/action.rs` lines 260-266:
append both chunks verbatim when collection is enabled, otherwise drop
them. -/
def OutputCollector.collect (c : OutputCollector) (buf_stdout buf_stderr : List Nat) :
    OutputCollector :=
  if c.should_collect then
    { c with stdout := c.stdout ++ buf_stdout, stderr := c.stderr ++ buf_stderr }
  else c

/-- `OutputCollector::stdout` from `src/stdlib/action.rs` lines 268-271:
UTF-8-decode the buffered bytes. -/
def OutputCollector.stdoutStr (c : OutputCollector) : Option String :=
  (utf8Decode c.stdout).map (fun cs => String.mk cs)

/-- `OutputCollector::stderr` from `src/stdlib/action.rs` lines 272-275. -/
def OutputCollector.stderrStr (c : OutputCollector) : Option String :=
  (utf8Decode c.stderr).map (fun cs => String.mk cs)

/-- Outcome of the output-pump loop in `Action::run`: either the final
collector, or a panic (`panic!("Some better error handling here... {:?}",
other)`). -/
inductive StreamOutcome
  | done : OutputCollector → StreamOutcome
  | panicked : String → StreamOutcome
deriving DecidableEq, Repr

/-- The streaming loop of `Action::run` (`src/stdlib/action.rs` lines
119-137) over a trace of `(stdout.fill_buf(), stderr.fill_buf())` results:
on `Ok/Ok` collect both chunks (mirroring to the host streams is a side
effect outside the model) and stop when both are empty; any read error
panics.  An exhausted trace stands for the end of the supplied schedule. -/
def stream_loop (c : OutputCollector) :
    List (Except Unit (List Nat) × Except Unit (List Nat)) → StreamOutcome
  | [] => .done c
  | (r1, r2) :: rest =>
    match r1, r2 with
    | .ok outb, .ok errb =>
      let c2 := c.collect outb errb
      if outb.length = 0 ∧ errb.length = 0 then .done c2
      else stream_loop c2 rest
    | _, _ => .panicked "Some better error handling here..."

/-- `ExitStatus` as consumed by `ActionCtx::new`
(`src/stdlib/action.rs` lines 235-243): an optional exit code and an optional
termination signal. -/
structure ExitStatus where
  code : Option Int
  signal : Option Int
deriving DecidableEq, Repr

/-- `status.code().or(status.signal()).unwrap_or(-1)` from `ActionCtx::new`. -/
def exit_code_of (s : ExitStatus) : Int :=
  (s.code.orElse (fun _ => s.signal)).getD (-1)

/-- `ActionCtx` from `src/stdlib/action.rs` lines 189-194. -/
structure ActionCtx where
  stdout : String
  stderr : String
  exit_code : Int
deriving DecidableEq, Repr

/-- The shape of a Starlark value as `Action::run` inspects it via
`get_type()`: a string, `None`, or anything else (tagged with its type
name). -/
inductive SValue
  | str : String → SValue
  | noneV : SValue
  | other : String → SValue
deriving DecidableEq, Repr

/-- The setter loop of `Action::run` (`src/stdlib/action.rs` lines 148-162).
Each setter is given as its target variable identifier together with the
outcome of `eval_function(setter.implementation, [ctx])`: an evaluation
error, or the returned value.  A string return records an update for the
target variable; `None` skips; any other type is the error `"setter must
return string or None"` which aborts the remaining setters.  The recorded
updates are the `resolver.update(..)` calls, in order. -/
def run_setters : List (String × Except String SValue) →
    Except String (List (String × String))
  | [] => .ok []
  | (ident, res) :: rest =>
    match res with
    | .error e => .error e
    | .ok (.str s) => (run_setters rest).map (fun us => (ident, s) :: us)
    | .ok .noneV => run_setters rest
    | .ok (.other _) => .error "setter must return string or None"

/-- Overall outcome of `Action::run`: a returned `Ok` (with the constructed
`ActionCtx` and the variable updates performed), a returned error, or a
panic. -/
inductive ActionOutcome
  | ok : ActionCtx → List (String × String) → ActionOutcome
  | err : String → ActionOutcome
  | panicked : String → ActionOutcome
deriving DecidableEq, Repr

/-- `Action::run` from `src/stdlib/action.rs` lines 93-166.  `spawn` is the
outcome of building the command and spawning the child (`self.command(..)?`
and `cmd.spawn()?`, both propagated with `?`); `setters` pairs each setter's
target variable identifier with its evaluation outcome; `reads` is the trace
of stream reads; `wait` is the outcome of `child.wait()`, whose failure the
Rust code turns into a panic via `.expect("Waiting for child failed")`.
`needs_action_ctx = setters.len() > 0` controls output collection. -/
def action_run (spawn : Except String Unit)
    (setters : List (String × Except String SValue))
    (reads : List (Except Unit (List Nat) × Except Unit (List Nat)))
    (wait : Except Unit ExitStatus) : ActionOutcome :=
  match spawn with
  | .error e => .err e
  | .ok _ =>
    let needs_action_ctx : Bool := decide (0 < setters.length)
    match stream_loop (OutputCollector.new needs_action_ctx) reads with
    | .panicked m => .panicked m
    | .done c =>
      match wait with
      | .error _ => .panicked "Waiting for child failed"
      | .ok status =>
        match c.stdoutStr with
        | none => .err "invalid utf-8 sequence"
        | some so =>
          match c.stderrStr with
          | none => .err "invalid utf-8 sequence"
          | some se =>
            match run_setters setters with
            | .error e => .err e
            | .ok updates => .ok ⟨so, se, exit_code_of status⟩ updates

/-- Starlark values at a `NextStub` invocation, as `NextStubGen::invoke`
inspects them (`src/stdlib/next.rs`): strings, ints, an `args.string(..)`
spec object (`StringArg { required, default }` from `src/stdlib/arg_spec.rs`),
an `args.int(..)` spec object (`IntArg`), or anything else. -/
inductive NXValue
  | str : String → NXValue
  | int : Int → NXValue
  | stringArg : Bool → String → NXValue
  | intArg : Bool → Int → NXValue
  | other : String → NXValue
deriving DecidableEq, Repr

/-- `StructValue` from `src/stdlib/arg_spec.rs` lines 119-123. -/
inductive StructValue
  | string : String → StructValue
  | int : Int → StructValue
deriving DecidableEq, Repr

/-- `StringArg::struct_value` from `src/stdlib/arg_spec.rs` lines 69-79: a
present value must have runtime type string exactly, an absent value falls
back to the spec's default. -/
def StringArg.struct_value (default : String) (value : Option NXValue) :
    Except String StructValue :=
  match value with
  | some v =>
    match v with
    | .str s => .ok (.string s)
    | _ => .error "Should be a string type"
  | none => .ok (.string default)

/-- Outcome of `NextStubGen::invoke`: the validated argument struct, or a
panic (`.expect("TODO")`, `panic!("FIX ME")`, `panic!("too many args")`). -/
inductive InvokeOutcome
  | ok : List (String × StructValue) → InvokeOutcome
  | panicked : String → InvokeOutcome
deriving DecidableEq, Repr

/-- `args_map.get(&key)` inside `NextStubGen::invoke`: look up a
caller-supplied named argument by name. -/
def arg_lookup (name : String) : List (String × NXValue) → Option NXValue
  | [] => none
  | p :: rest => if p.1 = name then some p.2 else arg_lookup name rest

/-- The spec-processing loop of `NextStubGen::invoke`
(`src/stdlib/next.rs` lines 70-81): for each spec entry look up the
caller-supplied named argument; only `StringArg` spec entries are handled
(`StringArg::from_value`), every other spec value hits `panic!("FIX ME")`;
a `struct_value` error hits `.expect("TODO")`. -/
def build_ctx_args (args : List (String × NXValue)) :
    List (String × NXValue) → InvokeOutcome
  | [] => .ok []
  | (specName, specValue) :: rest =>
    match specValue with
    | .stringArg _required default =>
      match StringArg.struct_value default (arg_lookup specName args) with
      | .ok v =>
        match build_ctx_args args rest with
        | .ok ctxArgs => .ok ((specName, v) :: ctxArgs)
        | .panicked m => .panicked m
      | .error _ => .panicked "TODO"
    | _ => .panicked "FIX ME"

/-- `NextStubGen::invoke` from `src/stdlib/next.rs` lines 57-98: build the
validated struct from the arg spec, then panic with `"too many args"` when
the number of caller-supplied named arguments differs from the number of
spec entries (`args.names()?.len() != ctx_args.len()`). -/
def next_stub_invoke (spec : List (String × NXValue))
    (args : List (String × NXValue)) : InvokeOutcome :=
  match build_ctx_args args spec with
  | .panicked m => .panicked m
  | .ok ctxArgs =>
    if args.length ≠ ctxArgs.length then .panicked "too many args"
    else .ok ctxArgs

/-- Statement-level helper: whether an `Except` computation succeeded
("succeeds" in the spec's sense of not returning an error). -/
def except_ok {ε α : Type} : Except ε α → Bool
  | .ok _ => true
  | .error _ => false

/-- Key lookup in the variable registry, as `HashMap::get` inside
`ParseContext::with_variable` / `VariableStore::get_variable_value`. -/
def var_lookup (name : String) : List (String × Variable) → Option Variable
  | [] => none
  | p :: rest => if p.1 = name then some p.2 else var_lookup name rest

/-- Statement-level accessor: the first snapshot entry carrying the given
variable name. -/
def frozen_find (name : String) : List FrozenVariable → Option FrozenVariable
  | [] => none
  | fv :: rest => if fv.name = name then some fv else frozen_find name rest

/-! ## Theorems -/

/-- C4: error handling of `Action::run`.  The claim says spawn failures,
stream-read I/O errors, non-UTF-8 captured output and ill-typed setter
returns are all reported to the caller as returned errors, with no panic.
The code reports spawn failures, non-UTF-8 output and ill-typed setter
returns as errors (first three conjuncts), but a stream-read I/O error hits
`panic!("Some better error handling here... {:?}", other)` and a failing
`child.wait()` hits `.expect("Waiting for child failed")` — both panics, not
returned errors (last two conjuncts), contradicting the claim. -/
theorem c4_action_run_error_handling :
    action_run (.error "spawn failed") [] [] (.ok ⟨some 0, none⟩) = .err "spawn failed"
    ∧ action_run (.ok ()) [("v", .ok (.str "x"))] [(.ok [255], .ok []), (.ok [], .ok [])]
        (.ok ⟨some 0, none⟩) = .err "invalid utf-8 sequence"
    ∧ action_run (.ok ()) [("a", .ok (.other "int")), ("b", .ok (.str "x"))]
        [(.ok [], .ok [])] (.ok ⟨some 0, none⟩) = .err "setter must return string or None"
    ∧ action_run (.ok ()) [] [(.error (), .ok [])] (.ok ⟨some 0, none⟩) =
        .panicked "Some better error handling here..."
    ∧ action_run (.ok ()) [] [] (.error ()) = .panicked "Waiting for child failed" := by
  decide

/-- C6: `NextStub` invocation.  The claim says each spec entry takes the
caller-supplied argument when present (with an exact-type check reported as
an error) and the spec default when absent, and that only supplying more
named arguments than declared is an error.  In the code, an invocation that
omits a declared argument panics with `"too many args"`
(`args.names()?.len() != ctx_args.len()` fires whenever the counts differ,
in either direction) instead of succeeding with the default (first
conjunct); a type mismatch panics via `.expect("TODO")` instead of being a
reported error (second conjunct); the matching-count case does use the
caller value (third conjunct). -/
theorem c6_next_stub_invoke_bug :
    next_stub_invoke [("a", .stringArg false "d")] [] = .panicked "too many args"
    ∧ next_stub_invoke [("a", .stringArg false "d")] [("a", .int 1)] = .panicked "TODO"
    ∧ next_stub_invoke [("a", .stringArg false "d")] [("a", .str "x")] =
        .ok [("a", .string "x")] := by
  decide

/-- C3: scope enforcement.  For a variable with a value set, `read_value`
succeeds exactly for readers in a `Restricted` scope's list and for every
reader under `Global`; `write_value` succeeds exactly for writers in a
`Restricted` scope's list and for every writer under `Global`. -/
theorem c3_scope_invariant (v : Variable) (c : ValueContext) (S : List String)
    (r w val : String) (hval : v.value_ctx = some c) :
    ((v.readers = VariableScope.Restricted S →
        (except_ok (v.read_value r) = true ↔ r ∈ S))
     ∧ (v.readers = VariableScope.Global → except_ok (v.read_value r) = true))
    ∧ ((v.writers = VariableScope.Restricted S →
        (except_ok (v.write_value val w) = true ↔ w ∈ S))
     ∧ (v.writers = VariableScope.Global → except_ok (v.write_value val w) = true)) := by
  refine ⟨⟨fun hS => ?_, fun hG => ?_⟩, ⟨fun hS => ?_, fun hG => ?_⟩⟩
  · by_cases hr : r ∈ S
    · simp [Variable.read_value, access_allowed, hS, hr,
        Variable.read_value_unchecked, hval, except_ok]
    · simp [Variable.read_value, access_allowed, hS, hr,
        Variable.read_value_unchecked, hval, except_ok]
  · simp [Variable.read_value, access_allowed, hG,
      Variable.read_value_unchecked, hval, except_ok]
  · by_cases hw : w ∈ S
    · simp [Variable.write_value, access_allowed, hS, hw, except_ok]
    · simp [Variable.write_value, access_allowed, hS, hw, except_ok]
  · simp [Variable.write_value, access_allowed, hG, except_ok]

/-- Witness for C3 at a concrete variable: reader "a" may read and writer "b"
may write a variable restricted to readers ["a"] and writers ["b"]. -/
theorem c3_scope_invariant_witness :
    except_ok ((Variable.mk "foo" none none (.Restricted ["a"]) (.Restricted ["b"])
        (some ⟨"x", .DefaultValue⟩)).read_value "a") = true
    ∧ except_ok ((Variable.mk "foo" none none (.Restricted ["a"]) (.Restricted ["b"])
        (some ⟨"x", .DefaultValue⟩)).write_value "z" "b") = true :=
  ⟨((c3_scope_invariant _ ⟨"x", .DefaultValue⟩ ["a"] "a" "b" "z" rfl).1.1 rfl).mpr
      (by decide),
   ((c3_scope_invariant _ ⟨"x", .DefaultValue⟩ ["b"] "a" "b" "z" rfl).2.1 rfl).mpr
      (by decide)⟩

/-- C5: `Workflow::first_node` resolution of the starting node: an empty
graph is an error; a one-node graph yields that node whatever the
entrypoint; a larger graph requires the entrypoint to name an existing node,
failing with the "No node with name" error otherwise. -/
theorem c5_first_node (w : WorkflowB) (p : String × NodeB) (n : NodeB) :
    (w.graph = [] → first_node w = .error "Graph contains no nodes")
    ∧ (w.graph = [p] → first_node w = .ok p.2)
    ∧ (1 < w.graph.length →
        ((graph_lookup w.entrypoint w.graph = some n → first_node w = .ok n)
         ∧ (graph_lookup w.entrypoint w.graph = none →
            first_node w = .error ("No node with name: " ++ w.entrypoint)))) := by
  refine ⟨fun h => ?_, fun h => ?_, fun hlen => ⟨fun hsome => ?_, fun hnone => ?_⟩⟩
  · simp [first_node, h]
  · simp [first_node, h]
  · rcases hg : w.graph with _ | ⟨a, _ | ⟨b, t⟩⟩
    · rw [hg] at hlen; simp at hlen
    · rw [hg] at hlen; simp at hlen
    · rw [hg] at hsome
      simp [first_node, hg, hsome]
  · rcases hg : w.graph with _ | ⟨a, _ | ⟨b, t⟩⟩
    · rw [hg] at hlen; simp at hlen
    · rw [hg] at hlen; simp at hlen
    · rw [hg] at hnone
      simp [first_node, hg, hnone]

/-- Witness for C5: a two-node graph resolves its entrypoint "b", and a
one-node graph yields its node although the entrypoint "zzz" names nothing. -/
theorem c5_first_node_witness :
    first_node ⟨"b", [("a", ⟨"a", .ok none⟩), ("b", ⟨"b", .ok none⟩)]⟩ =
      .ok ⟨"b", .ok none⟩
    ∧ first_node ⟨"zzz", [("a", ⟨"a", .ok none⟩)]⟩ = .ok ⟨"a", .ok none⟩ :=
  ⟨((c5_first_node ⟨"b", [("a", ⟨"a", .ok none⟩), ("b", ⟨"b", .ok none⟩)]⟩
      ("a", ⟨"a", .ok none⟩) ⟨"b", .ok none⟩).2.2 (by decide)).1 rfl,
   (c5_first_node ⟨"zzz", [("a", ⟨"a", .ok none⟩)]⟩ ("a", ⟨"a", .ok none⟩)
      ⟨"a", .ok none⟩).2.1 rfl⟩

/-- C1: the graph walk of `Workflow::run` (looping driver modelled from the
spec, see `run_walk`): once the starting node is resolved, a node run
yielding no next name terminates the walk successfully; a yielded name bound
in the graph continues the walk at that node; a yielded name not bound in
the graph fails with the "No node with name" error rather than stopping
silently. -/
theorem c1_workflow_run_walk (w : WorkflowB) (fuel : Nat) (node next_node : NodeB)
    (nm : String) (hstart : first_node w = .ok node) :
    (node.runResult = .ok none → workflow_run (fuel + 1) w = .ok)
    ∧ (node.runResult = .ok (some nm) → graph_lookup nm w.graph = some next_node →
        workflow_run (fuel + 1) w = run_walk w.graph fuel next_node)
    ∧ (node.runResult = .ok (some nm) → graph_lookup nm w.graph = none →
        workflow_run (fuel + 1) w = .err ("No node with name: " ++ nm)) := by
  refine ⟨fun h => ?_, fun h hl => ?_, fun h hl => ?_⟩
  · simp [workflow_run, hstart, run_walk, h]
  · simp [workflow_run, hstart, run_walk, h, hl]
  · simp [workflow_run, hstart, run_walk, h, hl]

/-- Witness for C1 on the concrete graph a → b → stop: the walk from "a"
continues at node "b", and from "b" it terminates successfully. -/
theorem c1_workflow_run_walk_witness :
    workflow_run 2 ⟨"a", [("a", ⟨"a", .ok (some "b")⟩), ("b", ⟨"b", .ok none⟩)]⟩ =
      run_walk [("a", ⟨"a", .ok (some "b")⟩), ("b", ⟨"b", .ok none⟩)] 1 ⟨"b", .ok none⟩
    ∧ workflow_run 1 ⟨"b", [("a", ⟨"a", .ok (some "b")⟩), ("b", ⟨"b", .ok none⟩)]⟩ =
      .ok :=
  ⟨(c1_workflow_run_walk ⟨"a", [("a", ⟨"a", .ok (some "b")⟩), ("b", ⟨"b", .ok none⟩)]⟩
      1 ⟨"a", .ok (some "b")⟩ ⟨"b", .ok none⟩ "b" rfl).2.1 rfl rfl,
   (c1_workflow_run_walk ⟨"b", [("a", ⟨"a", .ok (some "b")⟩), ("b", ⟨"b", .ok none⟩)]⟩
      0 ⟨"b", .ok none⟩ ⟨"b", .ok none⟩ "b" rfl).1 rfl⟩

/-- C7 (amended): `validate_cli_flag` accepts a flag exactly when it is
space-free and either a single character, of shape `-x` (two characters,
leading single dash, not `--`), or of leading-double-dash shape with length
greater than 2; and every rejection is an `InvalidAttribute` error naming the
`cli_flag` attribute and the offending value.  (The original claim omitted
the single-character case refuted by `c7_cli_flag_shape_counterexample`.) -/
theorem c7_amended_flag_validation (flag : String) :
    (validate_cli_flag (some flag) = .ok (some flag) ↔ amended_flag_shape flag.data)
    ∧ (∀ e, validate_cli_flag (some flag) = .error e →
        e.attr = "cli_flag" ∧ e.value = flag) := by
  have hattr : ∀ e, validate_cli_flag (some flag) = .error e →
      e.attr = "cli_flag" ∧ e.value = flag := by
    unfold validate_cli_flag
    dsimp only
    split_ifs <;> intro e he <;>
      first
        | (injection he with h; subst h; exact ⟨rfl, rfl⟩)
        | simp at he
  refine ⟨?_, hattr⟩
  unfold validate_cli_flag amended_flag_shape
  dsimp only
  split_ifs with h1 h2 h3 h4
  · constructor
    · intro he; simp at he
    · rintro ⟨hc, hlens⟩
      rw [h1] at hlens
      simp at hlens
  · constructor
    · intro he; simp at he
    · rintro ⟨hc, _⟩
      exact absurd h2 hc
  · constructor
    · intro he; simp at he
    · obtain ⟨hlen, hbad⟩ := h3
      rintro ⟨hc, hl1 | ⟨_, htake, hne⟩ | ⟨hgt, _⟩⟩
      · omega
      · rcases hbad with hb | hb
        · exact hb htake
        · exact hne hb
      · omega
  · constructor
    · intro he; simp at he
    · obtain ⟨hgt, htake⟩ := h4
      rintro ⟨hc, hl1 | ⟨hlen, _, _⟩ | ⟨_, htk⟩⟩
      · omega
      · omega
      · exact htake htk
  · constructor
    · intro _
      refine ⟨h2, ?_⟩
      rcases Nat.lt_trichotomy flag.data.length 2 with h | h | h
      · left
        have h0 : flag.data.length ≠ 0 := by
          intro hz
          exact h1 (List.length_eq_zero.mp hz)
        omega
      · right; left
        push_neg at h3
        obtain ⟨htake, hne⟩ := h3 h
        exact ⟨h, htake, hne⟩
      · right; right
        push_neg at h4
        exact ⟨h, h4 h⟩
    · intro _; rfl

/-- C8: CLI-flag matching.  When an args element equals the registered flag
exactly, the immediately following element is the value; when the flag is the
last element with nothing after it, `find_cli_flag_value` yields `none`, CLI
resolution for the variable fails, and realization falls through to the
environment/default branch of `realize_variable`. -/
theorem c8_cli_flag_matching (flag v2 : String) (l r args : List String)
    (envv : String → Option String) (vr : Variable) :
    (flag ∉ l → find_cli_flag_value flag (l ++ flag :: v2 :: r) = some v2)
    ∧ (flag ∉ l → find_cli_flag_value flag (l ++ [flag]) = none)
    ∧ (vr.cli_flag = some flag → find_cli_flag_value flag args = none →
        realize_variable envv args vr =
          match vr.try_update_value_from_env envv with
          | .ok v3 => v3
          | .error _ => vr) := by
  refine ⟨fun hnl => ?_, fun hnl => ?_, fun hf hn => ?_⟩
  · induction l with
    | nil => simp [find_cli_flag_value]
    | cons a t ih =>
      rw [List.mem_cons, not_or] at hnl
      have ha : a ≠ flag := fun h => hnl.1 h.symm
      simp [find_cli_flag_value, ha, ih hnl.2]
  · induction l with
    | nil => simp [find_cli_flag_value]
    | cons a t ih =>
      rw [List.mem_cons, not_or] at hnl
      have ha : a ≠ flag := fun h => hnl.1 h.symm
      simp [find_cli_flag_value, ha, ih hnl.2]
  · simp [realize_variable, Variable.try_update_value_from_cli_flag, hf, hn]

/-- C2: realization precedence CLI flag > environment > default.  For a
registered variable, `realize_variable` takes the CLI value when the flag
matches in the args (recorded with `CLIFlag` provenance); otherwise the
environment value when the env var is set (recorded with
`EnvironmentVariable` provenance); otherwise the variable — and hence its
prior default or unset value — is untouched.  The last conjunct lifts this to
every entry of the store processed by `realize_variables`. -/
theorem c2_realize_precedence (envv : String → Option String) (args : List String)
    (v : Variable) (f x k e n : String) (store : List (String × Variable)) :
    (v.cli_flag = some f → find_cli_flag_value f args = some x →
      (realize_variable envv args v).value_ctx = some ⟨x, .CLIFlag f⟩)
    ∧ ((∀ f2, v.cli_flag = some f2 → find_cli_flag_value f2 args = none) →
       v.env = some k → envv k = some e →
       (realize_variable envv args v).value_ctx = some ⟨e, .EnvironmentVariable k⟩)
    ∧ ((∀ f2, v.cli_flag = some f2 → find_cli_flag_value f2 args = none) →
       (∀ k2, v.env = some k2 → envv k2 = none) →
       realize_variable envv args v = v)
    ∧ (var_lookup n (realize_variables envv args store) =
        (var_lookup n store).map (realize_variable envv args)) := by
  refine ⟨fun hf hx => ?_, fun hcli hk he => ?_, fun hcli henv => ?_, ?_⟩
  · simp [realize_variable, Variable.try_update_value_from_cli_flag, hf, hx,
      Variable.write_value_unchecked]
  · rcases hcf : v.cli_flag with _ | f2
    · simp [realize_variable, Variable.try_update_value_from_cli_flag, hcf,
        Variable.try_update_value_from_env, hk, he, Variable.write_value_unchecked]
    · simp [realize_variable, Variable.try_update_value_from_cli_flag, hcf,
        hcli f2 hcf, Variable.try_update_value_from_env, hk, he,
        Variable.write_value_unchecked]
  · rcases hcf : v.cli_flag with _ | f2
    · rcases hke : v.env with _ | k2
      · simp [realize_variable, Variable.try_update_value_from_cli_flag, hcf,
          Variable.try_update_value_from_env, hke]
      · simp [realize_variable, Variable.try_update_value_from_cli_flag, hcf,
          Variable.try_update_value_from_env, hke, henv k2 hke]
    · rcases hke : v.env with _ | k2
      · simp [realize_variable, Variable.try_update_value_from_cli_flag, hcf,
          hcli f2 hcf, Variable.try_update_value_from_env, hke]
      · simp [realize_variable, Variable.try_update_value_from_cli_flag, hcf,
          hcli f2 hcf, Variable.try_update_value_from_env, hke, henv k2 hke]
  · induction store with
    | nil => simp [realize_variables, var_lookup]
    | cons p t ih =>
      simp only [realize_variables] at ih ⊢
      by_cases hp : p.1 = n
      · simp [var_lookup, hp]
      · simp [var_lookup, hp]
        exact ih

/-- Helper: with collection disabled the pump loop never changes the
collector, whatever the subprocess writes. -/
theorem stream_loop_all_ok_no_collect (oklist : List (List Nat × List Nat))
    (c : OutputCollector) (hc : c.should_collect = false) :
    stream_loop c (oklist.map (fun q => (.ok q.1, .ok q.2))) = .done c := by
  induction oklist generalizing c with
  | nil => simp [stream_loop]
  | cons q t ih =>
    have hcol : c.collect q.1 q.2 = c := by simp [OutputCollector.collect, hc]
    by_cases h : q.1.length = 0 ∧ q.2.length = 0
    · simp [stream_loop, hcol, h]
    · simp [stream_loop, hcol, h, ih c hc]

/-- Helper: with collection enabled the pump loop appends every chunk of both
streams verbatim, in order, until the terminating empty read. -/
theorem stream_loop_collects_verbatim (oklist : List (List Nat × List Nat))
    (c : OutputCollector) (hc : c.should_collect = true)
    (hne : ∀ q ∈ oklist, ¬(q.1 = [] ∧ q.2 = [])) :
    stream_loop c (oklist.map (fun q => (.ok q.1, .ok q.2)) ++ [(.ok [], .ok [])]) =
      .done ⟨c.stdout ++ (oklist.map Prod.fst).flatten,
             c.stderr ++ (oklist.map Prod.snd).flatten, true⟩ := by
  induction oklist generalizing c with
  | nil =>
    obtain ⟨cs, ce, csc⟩ := c
    simp at hc
    subst hc
    simp [stream_loop, OutputCollector.collect]
  | cons q t ih =>
    have hq := hne q (by simp)
    have hlen : ¬(q.1.length = 0 ∧ q.2.length = 0) := by
      rw [List.length_eq_zero, List.length_eq_zero]
      exact hq
    have hcol : c.collect q.1 q.2 =
        ⟨c.stdout ++ q.1, c.stderr ++ q.2, true⟩ := by
      obtain ⟨cs, ce, csc⟩ := c
      simp at hc
      subst hc
      simp [OutputCollector.collect]
    have ht : ∀ q2 ∈ t, ¬(q2.1 = [] ∧ q2.2 = []) := fun q2 hm => hne q2 (by simp [hm])
    simp only [List.map_cons, List.cons_append, stream_loop, hcol]
    rw [if_neg hlen]
    have hrec := ih ⟨c.stdout ++ q.1, c.stderr ++ q.2, true⟩ rfl ht
    simp only [List.append_eq] at hrec ⊢
    rw [hrec]
    simp

/-- C10: output collection switch.  With no setters the collector is created
disabled, so the `ActionCtx` built after the child exits has empty `stdout`
and `stderr` whatever the subprocess wrote; with at least one setter the
collector (created with `needs_action_ctx = setters.len() > 0`) buffers the
streamed bytes of both channels verbatim. -/
theorem c10_output_collection (status : ExitStatus)
    (oklist : List (List Nat × List Nat))
    (setters : List (String × Except String SValue)) :
    (action_run (.ok ()) [] (oklist.map (fun q => (.ok q.1, .ok q.2))) (.ok status) =
      .ok ⟨"", "", exit_code_of status⟩ [])
    ∧ (setters ≠ [] → (∀ q ∈ oklist, ¬(q.1 = [] ∧ q.2 = [])) →
        stream_loop (OutputCollector.new (decide (0 < setters.length)))
            (oklist.map (fun q => (.ok q.1, .ok q.2)) ++ [(.ok [], .ok [])]) =
          .done ⟨(oklist.map Prod.fst).flatten, (oklist.map Prod.snd).flatten, true⟩) := by
  constructor
  · have h := stream_loop_all_ok_no_collect oklist (OutputCollector.new false) rfl
    have e1 : (decide (0 < ([] : List (String × Except String SValue)).length)) = false := rfl
    simp only [action_run, e1]
    rw [h]
    rfl
  · intro hset hq
    have hlen : (decide (0 < setters.length)) = true := by
      simp [List.length_pos, hset]
    rw [hlen]
    have h := stream_loop_collects_verbatim oklist (OutputCollector.new true) rfl hq
    simpa [OutputCollector.new] using h

/-- C9: snapshots are detached owned copies.  Taking a snapshot leaves the
registry unchanged, so two snapshots in a row are equal (first two
conjuncts); the snapshot entry of a variable carries that variable's current
fields (third conjunct); and after a setter-style write through
`writeVariable` the registry's new snapshot holds the written value while
the snapshot taken before the write continues to hold the old one (fourth
conjunct against the third). -/
theorem c9_snapshot_detached (interp : String → String → Option String)
    (whichf : String → Option String) (ctx : ParseContext)
    (name value writer : String) (v : Variable)
    (hkeys : ∀ p ∈ ctx.vars, p.1 = p.2.name)
    (hv : var_lookup name ctx.vars = some v)
    (hw : access_allowed v.writers writer = true) :
    ((ctx.snapshotOp interp whichf).1 =
      ((ctx.snapshotOp interp whichf).2.snapshotOp interp whichf).1)
    ∧ ((ctx.snapshotOp interp whichf).2 = ctx)
    ∧ (frozen_find name (ctx.mkSnapshot interp whichf).variableList =
        some (FrozenVariable.fromVariable v))
    ∧ (frozen_find name
          ((ctx.writeVariable name value writer).mkSnapshot interp whichf).variableList =
        some (FrozenVariable.fromVariable
          (v.write_value_unchecked value (.Action writer)))) := by
  have aux1 : ∀ (lv : List (String × Variable)),
      (∀ p ∈ lv, p.1 = p.2.name) → var_lookup name lv = some v →
      frozen_find name (lv.map (fun p => FrozenVariable.fromVariable p.2)) =
        some (FrozenVariable.fromVariable v) := by
    intro lv
    induction lv with
    | nil => intro _ hl; simp [var_lookup] at hl
    | cons p t ih =>
      intro hk hl
      have hpn : p.1 = p.2.name := hk p (by simp)
      by_cases hp : p.1 = name
      · rw [var_lookup, if_pos hp] at hl
        injection hl with hl
        subst hl
        simp [frozen_find, FrozenVariable.fromVariable, ← hpn, hp]
      · rw [var_lookup, if_neg hp] at hl
        have hfn : (FrozenVariable.fromVariable p.2).name ≠ name := by
          simp [FrozenVariable.fromVariable, ← hpn, hp]
        simp only [List.map_cons, frozen_find, if_neg hfn]
        exact ih (fun q hq => hk q (by simp [hq])) hl
  have aux2 : ∀ (lv : List (String × Variable)),
      (∀ p ∈ lv, p.1 = p.2.name) → var_lookup name lv = some v →
      frozen_find name ((update_assoc name
          (fun u => match u.write_value value writer with
            | .ok u2 => u2
            | .error _ => u) lv).map (fun p => FrozenVariable.fromVariable p.2)) =
        some (FrozenVariable.fromVariable
          (v.write_value_unchecked value (.Action writer))) := by
    intro lv
    induction lv with
    | nil => intro _ hl; simp [var_lookup] at hl
    | cons p t ih =>
      intro hk hl
      have hpn : p.1 = p.2.name := hk p (by simp)
      by_cases hp : p.1 = name
      · rw [var_lookup, if_pos hp] at hl
        injection hl with hl
        subst hl
        rw [update_assoc, if_pos hp]
        have hwv : p.2.write_value value writer =
            .ok (p.2.write_value_unchecked value (.Action writer)) := by
          simp [Variable.write_value, hw]
        simp [frozen_find, hwv, FrozenVariable.fromVariable,
          Variable.write_value_unchecked, ← hpn, hp]
      · rw [var_lookup, if_neg hp] at hl
        rw [update_assoc, if_neg hp]
        have hfn : (FrozenVariable.fromVariable p.2).name ≠ name := by
          simp [FrozenVariable.fromVariable, ← hpn, hp]
        simp only [List.map_cons, frozen_find, if_neg hfn]
        exact ih (fun q hq => hk q (by simp [hq])) hl
  exact ⟨rfl, rfl, aux1 ctx.vars hkeys hv, aux2 ctx.vars hkeys hv⟩

/-- C7 (counterexample): the single-character flag "x" matches neither of
the claim's two shapes, yet `validate_cli_flag` accepts it — no branch of the
Rust function checks strings of length 1, so the claim "every other cli_flag
string causes a construction error" is false. -/
theorem c7_cli_flag_shape_counterexample :
    validate_cli_flag (some "x") = .ok (some "x") ∧ ¬ claimed_flag_shape "x".data := by
  constructor
  · decide
  · unfold claimed_flag_shape
    decide

/-- Witness for C7's amended theorem at the flags "-v" (accepted) and "--"
(rejected with an error naming the attribute and value). -/
theorem c7_amended_flag_validation_witness :
    (validate_cli_flag (some "-v") = .ok (some "-v") ↔ amended_flag_shape "-v".data)
    ∧ ((InvalidAttr.mk "cli_flag" "short flags must take the form -v" "--").attr = "cli_flag"
       ∧ (InvalidAttr.mk "cli_flag" "short flags must take the form -v" "--").value = "--") :=
  ⟨(c7_amended_flag_validation "-v").1,
   (c7_amended_flag_validation "--").2
     ⟨"cli_flag", "short flags must take the form -v", "--"⟩ (by decide)⟩

/-- Witness for C8 at a concrete args list: "--foo" followed by "b" yields
"b"; a trailing "--foo" yields none; with the flag absent from args the
realization of a concrete variable falls through to the env branch. -/
theorem c8_cli_flag_matching_witness :
    find_cli_flag_value "--foo" (["--bar", "a"] ++ "--foo" :: "b" :: []) = some "b"
    ∧ find_cli_flag_value "--foo" (["--bar", "a"] ++ ["--foo"]) = none
    ∧ realize_variable (fun k => if k = "E" then some "e" else none) ["--foo"]
        (Variable.mk "v" (some "E") (some "--foo") .Global .Global none) =
        match (Variable.mk "v" (some "E") (some "--foo") .Global .Global
            none).try_update_value_from_env (fun k => if k = "E" then some "e" else none) with
        | .ok v3 => v3
        | .error _ => Variable.mk "v" (some "E") (some "--foo") .Global .Global none :=
  ⟨(c8_cli_flag_matching "--foo" "b" ["--bar", "a"] [] []
      (fun _ => none) (Variable.mk "v" none none .Global .Global none)).1 (by decide),
   (c8_cli_flag_matching "--foo" "b" ["--bar", "a"] [] []
      (fun _ => none) (Variable.mk "v" none none .Global .Global none)).2.1 (by decide),
   (c8_cli_flag_matching "--foo" "b" [] [] ["--foo"]
      (fun k => if k = "E" then some "e" else none)
      (Variable.mk "v" (some "E") (some "--foo") .Global .Global none)).2.2 rfl (by decide)⟩

/-- Witness for C2 at a concrete variable with default "D", env var
FOO_ENV = "e" and flag "--foo": args with the flag give "f"; args without it
give "e"; with the env var also unset the variable keeps its default. -/
theorem c2_realize_precedence_witness :
    (realize_variable (fun kk => if kk = "FOO_ENV" then some "e" else none) ["--foo", "f"]
        (Variable.mk "foo" (some "FOO_ENV") (some "--foo") .Global .Global
          (some ⟨"D", .DefaultValue⟩))).value_ctx = some ⟨"f", .CLIFlag "--foo"⟩
    ∧ (realize_variable (fun kk => if kk = "FOO_ENV" then some "e" else none) []
        (Variable.mk "foo" (some "FOO_ENV") (some "--foo") .Global .Global
          (some ⟨"D", .DefaultValue⟩))).value_ctx =
        some ⟨"e", .EnvironmentVariable "FOO_ENV"⟩
    ∧ realize_variable (fun _ => none) []
        (Variable.mk "foo" (some "FOO_ENV") (some "--foo") .Global .Global
          (some ⟨"D", .DefaultValue⟩)) =
        Variable.mk "foo" (some "FOO_ENV") (some "--foo") .Global .Global
          (some ⟨"D", .DefaultValue⟩) := by
  refine ⟨?_, ?_, ?_⟩
  · exact (c2_realize_precedence (fun kk => if kk = "FOO_ENV" then some "e" else none)
      ["--foo", "f"]
      (Variable.mk "foo" (some "FOO_ENV") (some "--foo") .Global .Global
        (some ⟨"D", .DefaultValue⟩)) "--foo" "f" "k" "e" "n" []).1 rfl (by decide)
  · refine (c2_realize_precedence (fun kk => if kk = "FOO_ENV" then some "e" else none) []
      (Variable.mk "foo" (some "FOO_ENV") (some "--foo") .Global .Global
        (some ⟨"D", .DefaultValue⟩)) "f" "f" "FOO_ENV" "e" "n" []).2.1 ?_ rfl (by decide)
    intro f2 h
    have hf : f2 = "--foo" := (Option.some.inj h).symm
    subst hf
    decide
  · refine (c2_realize_precedence (fun _ => none) []
      (Variable.mk "foo" (some "FOO_ENV") (some "--foo") .Global .Global
        (some ⟨"D", .DefaultValue⟩)) "f" "f" "k" "e" "n" []).2.2.1 ?_ ?_
    · intro f2 h
      have hf : f2 = "--foo" := (Option.some.inj h).symm
      subst hf
      decide
    · intro k2 _
      rfl

/-- Witness for C9 at a one-variable registry: the snapshot holds the old
value "old" and, after writing "new", the already-computable old snapshot
entry is unchanged while the new snapshot holds "new". -/
theorem c9_snapshot_detached_witness :
    ((ParseContext.mk [("foo", Variable.mk "foo" none none .Global .Global
        (some ⟨"old", .DefaultValue⟩))] []).snapshotOp (fun _ _ => none) (fun _ => none)).2 =
      ParseContext.mk [("foo", Variable.mk "foo" none none .Global .Global
        (some ⟨"old", .DefaultValue⟩))] []
    ∧ frozen_find "foo" ((ParseContext.mk [("foo", Variable.mk "foo" none none .Global .Global
        (some ⟨"old", .DefaultValue⟩))] []).mkSnapshot (fun _ _ => none)
          (fun _ => none)).variableList =
        some (FrozenVariable.fromVariable (Variable.mk "foo" none none .Global .Global
          (some ⟨"old", .DefaultValue⟩)))
    ∧ frozen_find "foo" (((ParseContext.mk [("foo", Variable.mk "foo" none none .Global .Global
        (some ⟨"old", .DefaultValue⟩))] []).writeVariable "foo" "new" "w").mkSnapshot
          (fun _ _ => none) (fun _ => none)).variableList =
        some (FrozenVariable.fromVariable ((Variable.mk "foo" none none .Global .Global
          (some ⟨"old", .DefaultValue⟩)).write_value_unchecked "new" (.Action "w"))) :=
  ⟨(c9_snapshot_detached (fun _ _ => none) (fun _ => none) _ "foo" "new" "w"
      (Variable.mk "foo" none none .Global .Global (some ⟨"old", .DefaultValue⟩))
      (by decide) (by decide) (by decide)).2.1,
   (c9_snapshot_detached (fun _ _ => none) (fun _ => none) _ "foo" "new" "w"
      (Variable.mk "foo" none none .Global .Global (some ⟨"old", .DefaultValue⟩))
      (by decide) (by decide) (by decide)).2.2.1,
   (c9_snapshot_detached (fun _ _ => none) (fun _ => none) _ "foo" "new" "w"
      (Variable.mk "foo" none none .Global .Global (some ⟨"old", .DefaultValue⟩))
      (by decide) (by decide) (by decide)).2.2.2⟩

/-- Witness for C10 at a concrete single-chunk run: with no setters the
resulting ActionCtx has empty output; with one setter the collector captures
the bytes 104/105 verbatim. -/
theorem c10_output_collection_witness :
    action_run (.ok ()) []
        ([([104], [105])].map (fun q => (.ok q.1, .ok q.2))) (.ok ⟨some 5, none⟩) =
      .ok ⟨"", "", exit_code_of ⟨some 5, none⟩⟩ []
    ∧ stream_loop (OutputCollector.new
          (decide (0 < ([("v", Except.ok SValue.noneV)] :
            List (String × Except String SValue)).length)))
        ([([104], [105])].map (fun q => (.ok q.1, .ok q.2)) ++ [(.ok [], .ok [])]) =
      .done ⟨([([104], [105])].map Prod.fst).flatten,
             ([([104], [105])].map Prod.snd).flatten, true⟩ :=
  ⟨(c10_output_collection ⟨some 5, none⟩ [([104], [105])] [("v", .ok .noneV)]).1,
   (c10_output_collection ⟨some 5, none⟩ [([104], [105])] [("v", .ok .noneV)]).2
     (by decide) (by decide)⟩
